import Mathlib

/-!
Verification of the tmz worker-coordination subsystem (Foreman / State Manager)
and the NullBlobStorageService stub of this repository.

The TypeScript sources are shallowly embedded as pure Lean functions.
Conventions of the embedding:
* stateful methods take the receiver state and return the updated state
  explicitly;
* the socket transport is external to the scheduler: the single asynchronous
  acknowledgment callback that a send may receive is modelled by an AckEvent
  value (the callback fired with its two arguments, or it never fired), and
  an environment maps each outstanding request to its AckEvent;
* a promise created by the code is described by the settlement it has reached
  once every callback that will ever fire has fired (PromiseStatus);
* winston log calls are collected into a list of LogEntry values.

stateManager.ts itself is not among the visible sources; its operations are
modelled from the specification and are marked as such in their doc comments.
baseForeman.ts, which is visible, is embedded directly.
-/

/-- A connected worker, identified by its opaque clientId
(socket-storage IWorker). -/
structure IWorker where
  clientId : String
deriving DecidableEq

/-- Detail record for a worker held by the scheduler (tmz messages
IWorkerDetail). The socket handle is owned by the transport collaborator and
is externalized into the acknowledgment environment, so only the worker
identity is kept here. -/
structure IWorkerDetail where
  worker : IWorker
deriving DecidableEq

/-- The unique key of an Assignment: (tenantId, documentId, taskType). -/
structure AssignKey where
  tenantId : String
  documentId : String
  taskType : String
deriving DecidableEq

/-- A live Assignment: the worker holding the task plus the two timestamps
used for expiry computation. -/
structure Assignment where
  worker : IWorkerDetail
  assignedAt : Nat
  lastActivityAt : Nat
deriving DecidableEq

/-- The State Manager state: the Assignment Table, the Worker Registry split
into its two kind buckets, and the configuration values the constructor reads
(tmz:timeoutMSec:worker, tmz:timeoutMSec:document, tmz:tasks). -/
structure StateManager where
  assignments : List (AssignKey × Assignment)
  activeServerWorkers : List IWorkerDetail
  activeClientWorkers : List IWorkerDetail
  workerTimeout : Nat
  documentTimeout : Nat
  tasks : List String
deriving DecidableEq

/-- The BaseForeman state: the State Manager it owns and the configured
acknowledgment wait (tmz:workerAckTimeMSec), which the constructor stores in
the ackTimeout field. -/
structure BaseForeman where
  manager : StateManager
  ackTimeout : Nat
deriving DecidableEq

/-- The one acknowledgment callback attached to an emitted message: either it
fired, carrying the (error/nack, ack) pair the transport passed it, or it
never fired at all (transport-level loss or a silent worker). -/
inductive AckEvent where
  | fired (err : String) (ack : Option IWorker)
  | neverFired
deriving DecidableEq

/-- Settlement reached by a promise once every callback that will ever fire
has fired. The code under analysis never invokes reject, but the rejected
state is part of the settlement space a caller can observe. -/
inductive PromiseStatus where
  | resolved
  | rejected (reason : String)
  | pending
deriving DecidableEq

/-- A winston log call, by level. -/
inductive LogEntry where
  | error (msg : String)
  | warn (msg : String)
  | info (msg : String)
deriving DecidableEq

/-- True exactly on the informational level. -/
def LogEntry.isInfo : LogEntry → Bool
  | LogEntry.info _ => true
  | _ => false

/-- True exactly on the warning level. -/
def LogEntry.isWarn : LogEntry → Bool
  | LogEntry.warn _ => true
  | _ => false

/-- One (taskType, worker) pair inside an expired document, as
getExpiredDocuments returns it (fields workType and detail in the source). -/
structure ExpiredWorkerEntry where
  workType : String
  detail : IWorkerDetail
deriving DecidableEq

/-- One expired document: its identity and the full list of its current
(taskType, worker) pairs. -/
structure ExpiredDocument where
  tenantId : String
  documentId : String
  workers : List ExpiredWorkerEntry
deriving DecidableEq

/-- Looks up the live Assignment for a key in the Assignment Table. -/
def lookupAssign (s : StateManager) (k : AssignKey) : Option Assignment :=
  (s.assignments.find? (fun p => p.1 == k)).map Prod.snd

/-- Modelled from the spec: removeAssignment(tenantId, documentId, taskType)
of the State Manager (stateManager.ts is not among the visible sources).
Removes the Assignment for the key and reports whether one existed. -/
def removeAssignment (s : StateManager) (k : AssignKey) : StateManager × Bool :=
  ({ s with assignments := s.assignments.filter (fun p => !(p.1 == k)) },
   s.assignments.any (fun p => p.1 == k))

/-- Modelled from the spec: revokeWork(worker, tenantId, documentId, workType)
is the State Manager remove mutation the Foreman calls after a positive
acknowledgment; it frees the (tenantId, documentId, taskType) slot. -/
def revokeWork (s : StateManager) (worker : IWorkerDetail)
    (tenantId documentId workType : String) : StateManager :=
  (removeAssignment s ⟨tenantId, documentId, workType⟩).1

/-- Result of bindAssignment. -/
inductive BindResult where
  | ok
  | alreadyAssigned
deriving DecidableEq

/-- Refreshes an Assignment to a holder, keeping assignedAt and setting
lastActivityAt = now. -/
def refreshAssign (w : IWorkerDetail) (now : Nat) (a : Assignment) : Assignment :=
  { a with worker := w, lastActivityAt := now }

/-- Modelled from the spec: bindAssignment fails with AlreadyAssigned if a
live Assignment exists for that key and is held by a different worker;
otherwise it creates or refreshes the Assignment and sets
lastActivityAt = now. -/
def bindAssignment (s : StateManager) (k : AssignKey) (w : IWorkerDetail)
    (now : Nat) : StateManager × BindResult :=
  match lookupAssign s k with
  | some a =>
    if a.worker.worker.clientId = w.worker.clientId then
      ({ s with assignments := s.assignments.map (fun p =>
          if p.1 == k then (p.1, refreshAssign w now p.2) else p) },
       BindResult.ok)
    else (s, BindResult.alreadyAssigned)
  | none =>
    ({ s with assignments := (k, ⟨w, now, now⟩) :: s.assignments }, BindResult.ok)

/-- A bind is in conflict when the key is live and held by a different
worker; this is the condition under which bindAssignment must fail. -/
def bindConflict (s : StateManager) (k : AssignKey) (w : IWorkerDetail) : Bool :=
  match lookupAssign s k with
  | some a => a.worker.worker.clientId != w.worker.clientId
  | none => false

/-- One bindAssignment request of a call sequence. -/
structure BindReq where
  key : AssignKey
  worker : IWorkerDetail
  now : Nat
deriving DecidableEq

/-- Applies a sequence of bindAssignment calls in order. -/
def applyBinds (s : StateManager) (reqs : List BindReq) : StateManager :=
  reqs.foldl (fun st r => (bindAssignment st r.key r.worker r.now).1) s

/-- The core uniqueness invariant of the Assignment Table: at most one live
Assignment per (tenantId, documentId, taskType) key. -/
def KeysNodup (s : StateManager) : Prop :=
  (s.assignments.map Prod.fst).Nodup

/-- Modelled from the spec: getExpiredDocuments(now) of the State Manager.
An Assignment is expired when now - lastActivityAt > documentTimeout; the
expired assignments are grouped by (tenantId, documentId), each group carrying
the full list of its (taskType, worker) pairs. The visible fragments track no
separate worker-level heartbeat, so document-level staleness is the expiry
signal. -/
def getExpiredDocuments (s : StateManager) (now : Nat) : List ExpiredDocument :=
  let exp := s.assignments.filter (fun p => decide (s.documentTimeout < now - p.2.lastActivityAt))
  ((exp.map (fun p => (p.1.tenantId, p.1.documentId))).dedup).map (fun dk =>
    { tenantId := dk.1
      documentId := dk.2
      workers := (exp.filter (fun p => p.1.tenantId == dk.1 && p.1.documentId == dk.2)).map
        (fun p => { workType := p.1.taskType, detail := p.2.worker }) })

/-- An acknowledgment environment: the AckEvent eventually received by the
revoke message emitted for a given key to a given worker. -/
def AckEnv : Type := AssignKey → IWorkerDetail → AckEvent

/-- True when the callback fired with a truthy ack payload. -/
def isPositiveAck : AckEvent → Bool
  | AckEvent.fired _ (some _) => true
  | _ => false

/-- BaseForeman.revokeOne: emits RevokeObject for (tenantId, documentId,
workType) to the worker and installs the callback. If the callback fires with
a truthy ack, the manager revokeWork mutation runs and the promise resolves;
if it fires with a falsy ack, winston.error logs the error and the promise is
left pending (neither resolve nor reject is called); if it never fires,
nothing at all happens. No timer is installed: the stored ackTimeout is not
consulted anywhere in this method. -/
def revokeOne (s : StateManager) (tenantId documentId workType : String)
    (worker : IWorkerDetail) (ev : AckEvent) :
    StateManager × PromiseStatus × List LogEntry :=
  match ev with
  | AckEvent.fired err ack =>
    match ack with
    | some _ =>
      (revokeWork s worker tenantId documentId workType, PromiseStatus.resolved, [])
    | none => (s, PromiseStatus.pending, [LogEntry.error err])
  | AckEvent.neverFired => (s, PromiseStatus.pending, [])

/-- The record kept for one issued sub-revoke: the key and worker it named,
the settlement its promise reached, and the log it produced. -/
structure RevokeOutcome where
  key : AssignKey
  detail : IWorkerDetail
  status : PromiseStatus
  logs : List LogEntry
deriving DecidableEq

/-- One iteration of the inner loop of revokeExpiredWork: issue revokeOne for
one (taskType, worker) pair of a document and append its outcome. -/
def revokeStep (env : AckEnv) (tenantId documentId : String)
    (acc : StateManager × List RevokeOutcome) (w : ExpiredWorkerEntry) :
    StateManager × List RevokeOutcome :=
  let r := revokeOne acc.1 tenantId documentId w.workType w.detail
      (env ⟨tenantId, documentId, w.workType⟩ w.detail)
  (r.1, acc.2 ++ [{ key := ⟨tenantId, documentId, w.workType⟩
                    detail := w.detail
                    status := r.2.1
                    logs := r.2.2 }])

/-- One iteration of the outer loop of revokeExpiredWork: issue a revoke for
every (taskType, worker) pair of one expired document. -/
def revokeDocStep (env : AckEnv) (acc : StateManager × List RevokeOutcome)
    (doc : ExpiredDocument) : StateManager × List RevokeOutcome :=
  doc.workers.foldl (revokeStep env doc.tenantId doc.documentId) acc

/-- BaseForeman.revokeExpiredWork: asks the manager for the expired documents
and, for every (taskType, worker) pair of every expired document, pushes one
revokeOne promise; the array of promises is returned to the caller without
being awaited. The nested for loops of the source are the two folds. -/
def revokeExpiredWork (s : StateManager) (now : Nat) (env : AckEnv) :
    StateManager × List RevokeOutcome :=
  (getExpiredDocuments s now).foldl (revokeDocStep env) (s, [])

/-- The flat list of (key, worker) pairs contained in the expired documents,
in iteration order: one entry per revoke request the sweep issues. -/
def expiredPairs (s : StateManager) (now : Nat) :
    List (AssignKey × IWorkerDetail) :=
  (getExpiredDocuments s now).flatMap (fun doc =>
    doc.workers.map (fun w => (⟨doc.tenantId, doc.documentId, w.workType⟩, w.detail)))

/-- The settlement a sub-revoke promise reaches as a function of its own
acknowledgment event alone. -/
def ackStatus : AckEvent → PromiseStatus
  | AckEvent.fired _ (some _) => PromiseStatus.resolved
  | AckEvent.fired _ none => PromiseStatus.pending
  | AckEvent.neverFired => PromiseStatus.pending

/-- The log a sub-revoke produces as a function of its own acknowledgment
event alone. -/
def ackLogs : AckEvent → List LogEntry
  | AckEvent.fired err none => [LogEntry.error err]
  | _ => []

/-- The outcome record a sub-revoke for a pair produces under an event. -/
def mkOutcome (k : AssignKey) (w : IWorkerDetail) (ev : AckEvent) : RevokeOutcome :=
  { key := k, detail := w, status := ackStatus ev, logs := ackLogs ev }

/-- The string-equality dispatch on line 45 of baseForeman.ts: workerType
equal to the literal string server selects the active server workers, any
other string selects the active client workers. -/
def broadcastTargets (s : StateManager) (workerType : String) : List IWorkerDetail :=
  if workerType = "server" then s.activeServerWorkers else s.activeClientWorkers

/-- One AgentObject message as emitted to a worker: its clientId and the
(moduleName, action) payload. -/
structure AgentMessage where
  clientId : String
  moduleName : String
  action : String
deriving DecidableEq

/-- The callback installed on each AgentObject emit: on a truthy ack,
winston.info logs readiness; otherwise winston.info logs the nack value; a
callback that never fires logs nothing. -/
def broadcastAckLog (moduleName : String) (w : IWorkerDetail) : AckEvent → List LogEntry
  | AckEvent.fired _ (some _) =>
    [LogEntry.info (w.worker.clientId ++ " is ready to load " ++ moduleName)]
  | AckEvent.fired nack none => [LogEntry.info nack]
  | AckEvent.neverFired => []

/-- BaseForeman.broadcastNewAgentModule: selects the worker bucket by the
string comparison with server, emits one AgentObject message per worker
carrying (moduleName, action), and collects the advisory logs of the
callbacks. The manager state is returned untouched: no method of it is
mutated on any path. -/
def broadcastNewAgentModule (s : StateManager) (moduleName workerType action : String)
    (env : IWorkerDetail → AckEvent) :
    StateManager × List AgentMessage × List LogEntry :=
  let workers := broadcastTargets s workerType
  (s,
   workers.map (fun w => { clientId := w.worker.clientId, moduleName := moduleName, action := action }),
   workers.flatMap (fun w => broadcastAckLog moduleName w (env w)))

/-- BaseForeman.getManager: returns the manager field. In the explicit
state-passing convention a method returns its result together with the
receiver after the call. -/
def getManager (f : BaseForeman) : StateManager × BaseForeman :=
  (f.manager, f)

/-- revokeExpiredWork lifted to the Foreman: it runs on the manager the
Foreman owns and stores the updated manager back. -/
def foremanRevokeExpiredWork (f : BaseForeman) (now : Nat) (env : AckEnv) :
    BaseForeman × List RevokeOutcome :=
  let r := revokeExpiredWork f.manager now env
  ({ f with manager := r.1 }, r.2)

/-- Minimal version record of the storage api. -/
structure IVersion where
  id : String
deriving DecidableEq

/-- Minimal snapshot tree record of the storage api. -/
structure ISnapshotTree where
  blobs : List (String × String)
deriving DecidableEq

/-- Minimal tree record of the storage api. -/
structure ITree where
  entries : List String
deriving DecidableEq

/-- Minimal create-blob response record of the storage api. -/
structure ICreateBlobResponse where
  id : String
deriving DecidableEq

/-- Minimal summary commit record of the storage api. -/
structure ISummaryCommit where
  message : String
deriving DecidableEq

/-- Minimal summary packfile handle record of the storage api. -/
structure ISummaryPackfileHandle where
  packfilePath : String
deriving DecidableEq

/-- A byte buffer. -/
structure Buffer where
  bytes : List Nat
deriving DecidableEq

namespace NullBlobStorageService

/-- The repositoryUrl getter: throws Invalid operation. -/
def repositoryUrl : Except String String :=
  Except.error "Invalid operation"

/-- getSnapshotTree resolves with null. -/
def getSnapshotTree (version : Option IVersion) : Except String (Option ISnapshotTree) :=
  Except.ok none

/-- getVersions resolves with the empty array. -/
def getVersions (versionId : String) (count : Nat) : Except String (List IVersion) :=
  Except.ok []

/-- read rejects with Invalid operation. -/
def read (blobId : String) : Except String (Option String) :=
  Except.error "Invalid operation"

/-- getContent resolves with undefined. -/
def getContent (version : IVersion) (path : String) : Except String (Option String) :=
  Except.ok none

/-- write rejects: a null blob storage can not write a commit. -/
def write (tree : ITree) (parents : List String) (message : String) (ref : String) :
    Except String IVersion :=
  Except.error "Null blob storage can not write commit"

/-- uploadSummary rejects with Invalid operation. -/
def uploadSummary (commit : ISummaryCommit) : Except String ISummaryPackfileHandle :=
  Except.error "Invalid operation"

/-- downloadSummary rejects with Invalid operation. -/
def downloadSummary (handle : ISummaryPackfileHandle) : Except String ISummaryCommit :=
  Except.error "Invalid operation"

/-- createBlob rejects: a null blob storage can not create a blob. -/
def createBlob (file : Buffer) : Except String ICreateBlobResponse :=
  Except.error "Null blob storage can not create blob"

/-- getRawUrl throws Invalid operation. -/
def getRawUrl (blobId : String) : Except String (Option String) :=
  Except.error "Invalid operation"

end NullBlobStorageService

/-- Worker A fixture. -/
def wA : IWorkerDetail := ⟨⟨"workerA"⟩⟩

/-- Worker B fixture. -/
def wB : IWorkerDetail := ⟨⟨"workerB"⟩⟩

/-- A state with one stale assignment (lastActivityAt 0, documentTimeout 1). -/
def sOne : StateManager :=
  { assignments := [(⟨"t1", "d1", "intel"⟩, ⟨wA, 0, 0⟩)]
    activeServerWorkers := []
    activeClientWorkers := []
    workerTimeout := 10
    documentTimeout := 1
    tasks := ["intel"] }

/-- A state with two stale assignments on the same document, held by two
different workers. -/
def sTwo : StateManager :=
  { assignments := [(⟨"t1", "d1", "intel"⟩, ⟨wA, 0, 0⟩),
                    (⟨"t1", "d1", "translation"⟩, ⟨wB, 0, 0⟩)]
    activeServerWorkers := []
    activeClientWorkers := []
    workerTimeout := 10
    documentTimeout := 1
    tasks := ["intel", "translation"] }

/-- An environment in which no callback ever fires. -/
def envNever : AckEnv := fun _ _ => AckEvent.neverFired

/-- An environment in which the intel revoke is nacked and every other revoke
is positively acknowledged. -/
def envMixed : AckEnv := fun k _ =>
  if k.taskType == "intel" then AckEvent.fired "declined" none
  else AckEvent.fired "" (some ⟨"workerB"⟩)


/-- The revoke callback settles and logs as a function of its own event alone,
and the manager is mutated exactly on a positive acknowledgment. -/
lemma revokeOne_eq (s : StateManager) (tenantId documentId workType : String)
    (w : IWorkerDetail) (ev : AckEvent) :
    revokeOne s tenantId documentId workType w ev =
      ((if isPositiveAck ev then revokeWork s w tenantId documentId workType else s),
       ackStatus ev, ackLogs ev) := by
  cases ev with
  | fired err ack => cases ack <;> rfl
  | neverFired => rfl

/-- Filtering a key out of the table makes a subsequent search for it fail. -/
lemma find?_filter_not_beq (l : List (AssignKey × Assignment)) (k : AssignKey) :
    (l.filter (fun p => !(p.1 == k))).find? (fun p => p.1 == k) = none := by
  apply List.find?_eq_none.mpr
  intro x hx
  rw [List.mem_filter] at hx
  simpa using hx.2

/-- After the remove mutation, the revoked key has no live Assignment. -/
lemma lookupAssign_revokeWork (s : StateManager) (w : IWorkerDetail)
    (tenantId documentId workType : String) :
    lookupAssign (revokeWork s w tenantId documentId workType)
      ⟨tenantId, documentId, workType⟩ = none := by
  simp [lookupAssign, revokeWork, removeAssignment, find?_filter_not_beq]

/-- The inner loop of the sweep appends exactly one outcome per
(taskType, worker) pair of the document, each determined by its own event. -/
lemma docFold_outcomes (env : AckEnv) (tenantId documentId : String)
    (ws : List ExpiredWorkerEntry) (p : StateManager × List RevokeOutcome) :
    (ws.foldl (revokeStep env tenantId documentId) p).2
      = p.2 ++ ws.map (fun w => mkOutcome ⟨tenantId, documentId, w.workType⟩ w.detail
          (env ⟨tenantId, documentId, w.workType⟩ w.detail)) := by
  induction ws generalizing p with
  | nil => simp
  | cons w ws ih =>
    rw [List.foldl_cons, ih]
    simp [revokeStep, revokeOne_eq, mkOutcome]

/-- The outer loop of the sweep appends exactly one outcome per pair of every
expired document, in iteration order. -/
lemma sweepFold_outcomes (env : AckEnv) (docs : List ExpiredDocument)
    (p : StateManager × List RevokeOutcome) :
    (docs.foldl (revokeDocStep env) p).2
      = p.2 ++ docs.flatMap (fun doc => doc.workers.map (fun w =>
          mkOutcome ⟨doc.tenantId, doc.documentId, w.workType⟩ w.detail
            (env ⟨doc.tenantId, doc.documentId, w.workType⟩ w.detail))) := by
  induction docs generalizing p with
  | nil => simp
  | cons doc docs ih =>
    rw [List.foldl_cons, ih]
    simp only [revokeDocStep]
    rw [docFold_outcomes]
    simp [List.append_assoc]

/-- The sweep collects exactly the outcomes of the expired pairs, each the
image of its own acknowledgment event. -/
lemma revokeExpiredWork_outcomes (s : StateManager) (now : Nat) (env : AckEnv) :
    (revokeExpiredWork s now env).2
      = (expiredPairs s now).map (fun pr => mkOutcome pr.1 pr.2 (env pr.1 pr.2)) := by
  simp only [revokeExpiredWork, expiredPairs]
  rw [sweepFold_outcomes]
  simp only [List.map_flatMap, List.map_map, List.nil_append]
  rfl

/-- Updating the value stored under one key commutes with the key search. -/
lemma find?_map_update (l : List (AssignKey × Assignment)) (k : AssignKey)
    (f : Assignment → Assignment) :
    (l.map (fun p => if p.1 == k then (p.1, f p.2) else p)).find? (fun p => p.1 == k)
      = (l.find? (fun p => p.1 == k)).map (fun p => (p.1, f p.2)) := by
  induction l with
  | nil => rfl
  | cons x xs ih =>
    by_cases hx : x.1 = k
    · rw [List.map_cons, if_pos (beq_iff_eq.mpr hx)]
      rw [List.find?_cons_of_pos _ (by simpa using hx),
          List.find?_cons_of_pos _ (by simpa using hx)]
      rfl
    · rw [List.map_cons, if_neg (by simpa using hx)]
      rw [List.find?_cons_of_neg _ (by simpa using hx),
          List.find?_cons_of_neg _ (by simpa using hx), ih]

/-- Updating the value stored under one key leaves the key column unchanged. -/
lemma map_update_keys (l : List (AssignKey × Assignment)) (k : AssignKey)
    (f : Assignment → Assignment) :
    (l.map (fun p => if p.1 == k then (p.1, f p.2) else p)).map Prod.fst
      = l.map Prod.fst := by
  induction l with
  | nil => rfl
  | cons x xs ih =>
    by_cases hx : x.1 = k
    · rw [List.map_cons, if_pos (beq_iff_eq.mpr hx)]
      simp only [List.map_cons, ih]
    · rw [List.map_cons, if_neg (by simpa using hx)]
      simp only [List.map_cons, ih]

/-- A key with no live Assignment does not occur in the key column. -/
lemma lookupAssign_none_not_mem (s : StateManager) (k : AssignKey)
    (h : lookupAssign s k = none) : k ∉ s.assignments.map Prod.fst := by
  intro hmem
  rw [List.mem_map] at hmem
  obtain ⟨p, hp, hpk⟩ := hmem
  have hf : s.assignments.find? (fun q => q.1 == k) = none := by
    simpa [lookupAssign] using h
  have hx := List.find?_eq_none.mp hf p hp
  simp [hpk] at hx

/-- One bindAssignment call preserves the uniqueness invariant. -/
lemma bind_preserves_nodup (s : StateManager) (k : AssignKey) (w : IWorkerDetail)
    (now : Nat) (hs : KeysNodup s) : KeysNodup (bindAssignment s k w now).1 := by
  unfold KeysNodup at hs ⊢
  cases hl : lookupAssign s k with
  | some a =>
    by_cases hc : a.worker.worker.clientId = w.worker.clientId
    · have hassign : (bindAssignment s k w now).1.assignments
          = s.assignments.map (fun p =>
              if p.1 == k then (p.1, refreshAssign w now p.2) else p) := by
        simp only [bindAssignment, hl]
        rw [if_pos hc]
      rw [hassign, map_update_keys]
      exact hs
    · have hassign : (bindAssignment s k w now).1.assignments = s.assignments := by
        simp only [bindAssignment, hl]
        rw [if_neg hc]
      rw [hassign]
      exact hs
  | none =>
    have hassign : (bindAssignment s k w now).1.assignments
        = (k, ⟨w, now, now⟩) :: s.assignments := by
      simp only [bindAssignment, hl]
    rw [hassign, List.map_cons, List.nodup_cons]
    exact ⟨lookupAssign_none_not_mem s k hl, hs⟩

/-- Every sequence of bindAssignment calls preserves the uniqueness
invariant. -/
lemma applyBinds_nodup (reqs : List BindReq) (s : StateManager) (hs : KeysNodup s) :
    KeysNodup (applyBinds s reqs) := by
  induction reqs generalizing s with
  | nil => exact hs
  | cons r rs ih =>
    have h1 := bind_preserves_nodup s r.key r.worker r.now hs
    simpa [applyBinds, List.foldl_cons] using ih _ h1

/-- bindAssignment answers AlreadyAssigned exactly on a conflicting bind. -/
lemma bind_result_eq (s : StateManager) (k : AssignKey) (w : IWorkerDetail) (now : Nat) :
    (bindAssignment s k w now).2
      = (if bindConflict s k w then BindResult.alreadyAssigned else BindResult.ok) := by
  unfold bindAssignment bindConflict
  cases hl : lookupAssign s k with
  | some a =>
    by_cases hc : a.worker.worker.clientId = w.worker.clientId
    · simp [hc]
    · simp [hc]
  | none => simp

/-- After a non-conflicting bind the key holds the requested worker with
lastActivityAt = now; a conflicting bind leaves the entry untouched. -/
lemma bind_lookup_eq (s : StateManager) (k : AssignKey) (w : IWorkerDetail) (now : Nat) :
    (lookupAssign (bindAssignment s k w now).1 k).map
        (fun a => (a.worker.worker.clientId, a.lastActivityAt))
      = (if bindConflict s k w then
          (lookupAssign s k).map (fun a => (a.worker.worker.clientId, a.lastActivityAt))
        else some (w.worker.clientId, now)) := by
  cases hf : s.assignments.find? (fun p => p.1 == k) with
  | none =>
    have hl : lookupAssign s k = none := by simp [lookupAssign, hf]
    have hassign : (bindAssignment s k w now).1.assignments
        = (k, ⟨w, now, now⟩) :: s.assignments := by
      simp only [bindAssignment, hl]
    have hconf : bindConflict s k w = false := by
      simp only [bindConflict, hl]
    rw [hconf]
    simp only [Bool.false_eq_true, if_false]
    simp only [lookupAssign, hassign]
    rw [List.find?_cons_of_pos _ (by simp)]
    rfl
  | some pr =>
    have hl : lookupAssign s k = some pr.2 := by simp [lookupAssign, hf]
    by_cases hc : pr.2.worker.worker.clientId = w.worker.clientId
    · have hassign : (bindAssignment s k w now).1.assignments
          = s.assignments.map (fun p =>
              if p.1 == k then (p.1, refreshAssign w now p.2) else p) := by
        simp only [bindAssignment, hl]
        rw [if_pos hc]
      have hconf : bindConflict s k w = false := by
        simp only [bindConflict, hl]
        simp [hc]
      rw [hconf]
      simp only [Bool.false_eq_true, if_false]
      simp only [lookupAssign, hassign]
      rw [find?_map_update, hf]
      rfl
    · have hassign : bindAssignment s k w now = (s, BindResult.alreadyAssigned) := by
        simp only [bindAssignment, hl]
        rw [if_neg hc]
      have hconf : bindConflict s k w = true := by
        simp only [bindConflict, hl]
        simpa [bne_iff_ne] using hc
      rw [hassign, hconf, if_pos rfl]

/-- A positive-acknowledgment event used as a fixture. -/
def ackPos : AckEvent := AckEvent.fired "" (some ⟨"workerA"⟩)

/-- C1: within a single revoke, the State Manager remove mutation
(removeAssignment / revokeWork) runs exactly in the branch in which a positive
acknowledgment has been observed: under any other acknowledgment event the
manager is returned unchanged, and under a positive acknowledgment the revoked
key has been removed. -/
theorem C1_remove_only_after_positive_ack (s : StateManager)
    (tenantId documentId workType : String) (w : IWorkerDetail) (ev : AckEvent) :
    (isPositiveAck ev = false → (revokeOne s tenantId documentId workType w ev).1 = s) ∧
    (isPositiveAck ev = true →
      (revokeOne s tenantId documentId workType w ev).1
        = revokeWork s w tenantId documentId workType ∧
      lookupAssign (revokeOne s tenantId documentId workType w ev).1
        ⟨tenantId, documentId, workType⟩ = none) := by
  constructor
  · intro h
    rw [revokeOne_eq, h]
    simp
  · intro h
    rw [revokeOne_eq, h]
    simp [lookupAssign_revokeWork]

/-- Witness for C1 at concrete inputs: a never-firing callback leaves the
manager unchanged, and a positive acknowledgment removes the key. -/
theorem C1_witness :
    (revokeOne sOne "t1" "d1" "intel" wA AckEvent.neverFired).1 = sOne ∧
    lookupAssign (revokeOne sOne "t1" "d1" "intel" wA ackPos).1
      ⟨"t1", "d1", "intel"⟩ = none :=
  ⟨(C1_remove_only_after_positive_ack sOne "t1" "d1" "intel" wA AckEvent.neverFired).1
      (by decide),
   ((C1_remove_only_after_positive_ack sOne "t1" "d1" "intel" wA ackPos).2
      (by decide)).2⟩

/-- C2: evaluation of revokeOne at the failing inputs. The method installs no
timer, so when the callback never fires the promise is pending forever with
nothing logged, and even an explicit negative acknowledgment leaves the
promise pending (the callback neither resolves nor rejects on that branch):
the Foreman waits indefinitely, and the stored ackTimeout is never consulted
(revokeOne does not even take it as an input). -/
theorem C2_no_ack_timeout_in_code :
    revokeOne sOne "t1" "d1" "intel" wA AckEvent.neverFired
      = (sOne, PromiseStatus.pending, []) ∧
    revokeOne sOne "t1" "d1" "intel" wA (AckEvent.fired "declined" none)
      = (sOne, PromiseStatus.pending, [LogEntry.error "declined"]) :=
  ⟨rfl, rfl⟩

/-- Counterexample for C3 as stated: for a revoke whose acknowledgment never
arrives, nothing at all is logged (the claim asserts the outcome is logged as
an error), and the revoke never settles. -/
theorem C3_counterexample :
    (revokeOne sTwo "t1" "d1" "translation" wB AckEvent.neverFired).2.2 = [] ∧
    (revokeOne sTwo "t1" "d1" "translation" wB AckEvent.neverFired).2.1
      = PromiseStatus.pending ∧
    (revokeOne sTwo "t1" "d1" "translation" wB AckEvent.neverFired).1 = sTwo :=
  ⟨rfl, rfl, rfl⟩

/-- C3 amended: a negative acknowledgment is logged as an error and causes no
State Manager mutation; an acknowledgment that never arrives also causes no
mutation, but nothing is logged for it (there is no timeout mechanism) and in
both cases the promise never settles, so every Assignment remains present and
unchanged. -/
theorem C3_negative_or_absent_ack_no_mutation (s : StateManager)
    (tenantId documentId workType : String) (w : IWorkerDetail) (err : String) :
    revokeOne s tenantId documentId workType w (AckEvent.fired err none)
      = (s, PromiseStatus.pending, [LogEntry.error err]) ∧
    revokeOne s tenantId documentId workType w AckEvent.neverFired
      = (s, PromiseStatus.pending, []) :=
  ⟨rfl, rfl⟩

/-- Counterexample for C4 as stated: revokeExpiredWork returns its collection
of per-pair promises without awaiting them, and here the single sub-revoke it
collected is still pending at quiescence (its callback never fires), so the
call has completed although a sub-revoke never settled. -/
theorem C4_counterexample :
    ((revokeExpiredWork sOne 5 envNever).2).map RevokeOutcome.status
      = [PromiseStatus.pending] := by
  decide

/-- C4 amended: revokeExpiredWork calls getExpiredDocuments and issues exactly
one revoke request per (taskType, worker) pair of every expired document,
naming that pair, and collects exactly one outcome per pair in iteration
order; the promises are returned to the caller without being awaited, and a
pair whose acknowledgment is negative or absent never settles. -/
theorem C4_one_revoke_per_pair (s : StateManager) (now : Nat) (env : AckEnv) :
    ((revokeExpiredWork s now env).2).map (fun o => (o.key, o.detail))
      = expiredPairs s now := by
  rw [revokeExpiredWork_outcomes]
  simp [mkOutcome, List.map_map, Function.comp_def]

/-- Counterexample for C5 as stated: in a sweep of two assignments in which
the first revoke is nacked and the second positively acknowledged, the nacked
failure is not reported in the aggregate result: its entry is a forever
pending promise (never rejected), its only trace being the error log. The
resolved sibling also shows the failure did not abort the sweep. -/
theorem C5_counterexample :
    ((revokeExpiredWork sTwo 9 envMixed).2).map RevokeOutcome.status
      = [PromiseStatus.pending, PromiseStatus.resolved] ∧
    ((revokeExpiredWork sTwo 9 envMixed).2).map RevokeOutcome.logs
      = [[LogEntry.error "declined"], []] := by
  constructor <;> decide

/-- C5 amended: per-assignment outcomes of a sweep are fully independent:
the collected outcome of each (taskType, worker) pair is a function of that
pair and its own acknowledgment event alone, so a failing sub-revoke never
aborts or prevents sibling revokes; failures are however not reported in the
aggregate result, whose entry for a nacked or unacknowledged pair is a
promise that never settles (only an error log records a nack). -/
theorem C5_outcomes_independent (s : StateManager) (now : Nat) (env : AckEnv) :
    (revokeExpiredWork s now env).2
      = (expiredPairs s now).map (fun pr => mkOutcome pr.1 pr.2 (env pr.1 pr.2)) :=
  revokeExpiredWork_outcomes s now env

/-- The key of the assignment held in sOne. -/
def kI : AssignKey := ⟨"t1", "d1", "intel"⟩

/-- A sequence of bindAssignment requests used as a fixture: a create, a
conflicting rebind to a different worker, and a create on a second key. -/
def reqsW : List BindReq :=
  [⟨⟨"t2", "d1", "intel"⟩, wA, 1⟩, ⟨⟨"t2", "d1", "intel"⟩, wB, 2⟩,
   ⟨⟨"t2", "d2", "intel"⟩, wB, 3⟩]

/-- C6: the Assignment Table keeps at most one live Assignment per
(tenantId, documentId, taskType) key across every sequence of bindAssignment
calls; a bind on a key held by a different worker answers AlreadyAssigned and
leaves the entry untouched, while a bind on a free key or to the same holder
succeeds and installs the requested worker with lastActivityAt = now. -/
theorem C6_bind_uniqueness (s : StateManager) (reqs : List BindReq) (k : AssignKey)
    (w : IWorkerDetail) (now : Nat) (hs : KeysNodup s) :
    KeysNodup (applyBinds s reqs) ∧
    (bindAssignment s k w now).2
      = (if bindConflict s k w then BindResult.alreadyAssigned else BindResult.ok) ∧
    (lookupAssign (bindAssignment s k w now).1 k).map
        (fun a => (a.worker.worker.clientId, a.lastActivityAt))
      = (if bindConflict s k w then
          (lookupAssign s k).map (fun a => (a.worker.worker.clientId, a.lastActivityAt))
        else some (w.worker.clientId, now)) :=
  ⟨applyBinds_nodup reqs s hs, bind_result_eq s k w now, bind_lookup_eq s k w now⟩

/-- Witness for C6 at concrete inputs: sOne satisfies the invariant, the
request sequence preserves it, and a rebind of the held key to a different
worker fails with AlreadyAssigned. -/
theorem C6_witness :
    KeysNodup (applyBinds sOne reqsW) ∧
    (bindAssignment sOne kI wB 7).2
      = (if bindConflict sOne kI wB then BindResult.alreadyAssigned else BindResult.ok) ∧
    (lookupAssign (bindAssignment sOne kI wB 7).1 kI).map
        (fun a => (a.worker.worker.clientId, a.lastActivityAt))
      = (if bindConflict sOne kI wB then
          (lookupAssign sOne kI).map (fun a => (a.worker.worker.clientId, a.lastActivityAt))
        else some (wB.worker.clientId, 7)) :=
  C6_bind_uniqueness sOne reqsW kI wB 7 (by unfold KeysNodup; decide)

/-- Every log the broadcast callback can produce is informational: a positive
ack logs readiness, a nack logs the nack value through the same info call, an
absent callback logs nothing. -/
lemma broadcastAckLog_isInfo (moduleName : String) (w : IWorkerDetail)
    (ev : AckEvent) (e : LogEntry) (he : e ∈ broadcastAckLog moduleName w ev) :
    LogEntry.isInfo e = true := by
  cases ev with
  | fired err ack =>
    cases ack with
    | some x =>
      simp [broadcastAckLog] at he
      simp [he, LogEntry.isInfo]
    | none =>
      simp [broadcastAckLog] at he
      simp [he, LogEntry.isInfo]
  | neverFired => simp [broadcastAckLog] at he

/-- A state whose registry holds one active client worker. -/
def sB : StateManager :=
  { assignments := []
    activeServerWorkers := []
    activeClientWorkers := [wA]
    workerTimeout := 10
    documentTimeout := 1
    tasks := [] }

/-- A broadcast environment in which every worker nacks the module push. -/
def envBNack : IWorkerDetail → AckEvent := fun _ =>
  AckEvent.fired "module load declined" none

/-- A broadcast environment in which no callback ever fires. -/
def envBNever : IWorkerDetail → AckEvent := fun _ => AckEvent.neverFired

/-- Counterexample for C7 as stated: a negative acknowledgment of the module
broadcast is logged through winston.info, not as a warning, and an absent
acknowledgment produces no log at all. -/
theorem C7_counterexample :
    (broadcastNewAgentModule sB "mod1" "client" "add" envBNack).2.2
      = [LogEntry.info "module load declined"] ∧
    ((broadcastNewAgentModule sB "mod1" "client" "add" envBNack).2.2).any
        LogEntry.isWarn = false ∧
    (broadcastNewAgentModule sB "mod1" "client" "add" envBNever).2.2 = [] :=
  ⟨rfl, rfl, rfl⟩

/-- C7 amended: broadcastNewAgentModule sends exactly one asynchronous module
message carrying (moduleName, action) to every active worker of the selected
kind, never mutates the State Manager (Worker Registry and Assignment Table
are returned unchanged), never retracts or retries, and every log it can emit
is informational: a positive ack logs readiness and a negative ack logs the
nack value at the same informational level, while an absent ack logs
nothing. -/
theorem C7_broadcast_advisory (s : StateManager)
    (moduleName workerType action : String) (env : IWorkerDetail → AckEvent) :
    (broadcastNewAgentModule s moduleName workerType action env).1 = s ∧
    (broadcastNewAgentModule s moduleName workerType action env).2.1
      = (broadcastTargets s workerType).map (fun w =>
          { clientId := w.worker.clientId, moduleName := moduleName, action := action }) ∧
    ((broadcastNewAgentModule s moduleName workerType action env).2.2).all
        LogEntry.isInfo = true := by
  refine ⟨rfl, rfl, ?_⟩
  rw [List.all_eq_true]
  intro e he
  have he2 : e ∈ (broadcastTargets s workerType).flatMap
      (fun w => broadcastAckLog moduleName w (env w)) := he
  rw [List.mem_flatMap] at he2
  obtain ⟨w, _, hw⟩ := he2
  exact broadcastAckLog_isInfo moduleName w (env w) e hw

/-- Counterexample for C8 as stated: three methods of NullBlobStorageService
succeed instead of rejecting: getVersions resolves with the empty array,
getSnapshotTree resolves with null, getContent resolves with undefined. -/
theorem C8_counterexample :
    NullBlobStorageService.getVersions "any" 1 = Except.ok [] ∧
    NullBlobStorageService.getSnapshotTree none = Except.ok none ∧
    NullBlobStorageService.getContent ⟨"v1"⟩ "p" = Except.ok none :=
  ⟨rfl, rfl, rfl⟩

/-- C8 amended: every method of NullBlobStorageService either throws or
rejects (repositoryUrl, read, write, uploadSummary, downloadSummary,
createBlob, getRawUrl) or resolves with an empty placeholder rather than
stored data (getSnapshotTree resolves null, getVersions the empty list,
getContent undefined); no method ever succeeds with actual data. -/
theorem C8_null_storage_methods (version : Option IVersion) (versionId : String)
    (count : Nat) (blobId : String) (v : IVersion) (path : String) (tree : ITree)
    (parents : List String) (message ref : String) (commit : ISummaryCommit)
    (handle : ISummaryPackfileHandle) (file : Buffer) (blobId2 : String) :
    NullBlobStorageService.repositoryUrl = Except.error "Invalid operation" ∧
    NullBlobStorageService.getSnapshotTree version = Except.ok none ∧
    NullBlobStorageService.getVersions versionId count = Except.ok [] ∧
    NullBlobStorageService.read blobId = Except.error "Invalid operation" ∧
    NullBlobStorageService.getContent v path = Except.ok none ∧
    NullBlobStorageService.write tree parents message ref
      = Except.error "Null blob storage can not write commit" ∧
    NullBlobStorageService.uploadSummary commit = Except.error "Invalid operation" ∧
    NullBlobStorageService.downloadSummary handle = Except.error "Invalid operation" ∧
    NullBlobStorageService.createBlob file
      = Except.error "Null blob storage can not create blob" ∧
    NullBlobStorageService.getRawUrl blobId2 = Except.error "Invalid operation" :=
  ⟨rfl, rfl, rfl, rfl, rfl, rfl, rfl, rfl, rfl, rfl⟩

/-- C9: getManager returns exactly the State Manager instance the Foreman
owns, the call leaves the Foreman (hence Worker Registry and Assignment
Table) unchanged, and the instance it returns is the same one the revocation
sweep reads and mutates. -/
theorem C9_getManager_reads_same_instance (f : BaseForeman) (now : Nat)
    (env : AckEnv) :
    (getManager f).1 = f.manager ∧
    (getManager f).2 = f ∧
    (foremanRevokeExpiredWork f now env).1.manager
      = (revokeExpiredWork (getManager f).1 now env).1 :=
  ⟨rfl, rfl, rfl⟩

/-- C10: the worker-kind filter of the broadcast is decided by string
equality with the literal server: that string selects the active server
workers and every other string selects the active client workers, and the
broadcast messages go exactly to the selected bucket. -/
theorem C10_worker_kind_dispatch (s : StateManager)
    (workerType moduleName action : String) (env : IWorkerDetail → AckEvent) :
    (workerType = "server" → broadcastTargets s workerType = s.activeServerWorkers) ∧
    (workerType ≠ "server" → broadcastTargets s workerType = s.activeClientWorkers) ∧
    (broadcastNewAgentModule s moduleName workerType action env).2.1
      = (broadcastTargets s workerType).map (fun w =>
          { clientId := w.worker.clientId, moduleName := moduleName, action := action }) := by
  refine ⟨fun h => ?_, fun h => ?_, rfl⟩
  · simp only [broadcastTargets]
    rw [if_pos h]
  · simp only [broadcastTargets]
    rw [if_neg h]

/-- Witness for C10 at concrete inputs: the literal server selects the server
bucket and an unrecognized kind selects the client bucket. -/
theorem C10_witness :
    broadcastTargets sB "server" = sB.activeServerWorkers ∧
    broadcastTargets sB "paparazzi" = sB.activeClientWorkers :=
  ⟨(C10_worker_kind_dispatch sB "server" "mod1" "add" envBNever).1 rfl,
   (C10_worker_kind_dispatch sB "paparazzi" "mod1" "add" envBNever).2.1 (by decide)⟩
